import Mathlib

/-!
Shallow embedding of the Hermit platform-abstraction layer of this Rust
repository (library/std/src/sys/hermit/{fs.rs,net.rs} and
library/std/src/os/hermit/io.rs), together with theorems settling the
behavioural claims about it.

Machine integers (u8, u16, u32, u64, i32) are embedded as `Nat`; none of
the verified operations overflow, and where the source performs a
range-checked conversion (`u32 -> u8` via `try_into`) the embedding
performs the same explicit bound check.
-/

namespace Hermit

/-! ## Portable (std) value types

These mirror `std::net::{Ipv4Addr, Ipv6Addr, IpAddr, SocketAddrV4,
SocketAddrV6, SocketAddr, Shutdown}`: `Ipv4Addr::new` stores the four
octets and `octets()` returns them; `Ipv6Addr::new` stores the eight
16-bit segments and `segments()` returns them; the socket-address types
store ip/port (plus flowinfo/scope_id for V6) and expose them via
accessors. The embedding stores those components directly. -/

structure Ipv4Addr where
  a : Nat
  b : Nat
  c : Nat
  d : Nat
deriving DecidableEq, Repr

structure Ipv6Addr where
  a : Nat
  b : Nat
  c : Nat
  d : Nat
  e : Nat
  f : Nat
  g : Nat
  h : Nat
deriving DecidableEq, Repr

inductive IpAddr where
  | V4 : Ipv4Addr → IpAddr
  | V6 : Ipv6Addr → IpAddr
deriving DecidableEq, Repr

structure SocketAddrV4 where
  ip : Ipv4Addr
  port : Nat
deriving DecidableEq, Repr

structure SocketAddrV6 where
  ip : Ipv6Addr
  port : Nat
  flowinfo : Nat
  scope_id : Nat
deriving DecidableEq, Repr

inductive SocketAddr where
  | V4 : SocketAddrV4 → SocketAddr
  | V6 : SocketAddrV6 → SocketAddr
deriving DecidableEq, Repr

inductive Shutdown where
  | Read
  | Write
  | Both
deriving DecidableEq, Repr

/-! ## Native (hermit-abi) value types

Plain value structs with the same fields in a different layout, as used by
`os/hermit/io.rs` (`abi::net::Ipv4Addr { a, b, c, d }`, etc.). -/

namespace abi

structure Ipv4Addr where
  a : Nat
  b : Nat
  c : Nat
  d : Nat
deriving DecidableEq, Repr

structure Ipv6Addr where
  a : Nat
  b : Nat
  c : Nat
  d : Nat
  e : Nat
  f : Nat
  g : Nat
  h : Nat
deriving DecidableEq, Repr

inductive IpAddr where
  | V4 : Ipv4Addr → IpAddr
  | V6 : Ipv6Addr → IpAddr
deriving DecidableEq, Repr

structure SocketAddrV4 where
  ip_addr : Ipv4Addr
  port : Nat
deriving DecidableEq, Repr

structure SocketAddrV6 where
  ip_addr : Ipv6Addr
  port : Nat
  flowinfo : Nat
  scope_id : Nat
deriving DecidableEq, Repr

inductive SocketAddr where
  | V4 : SocketAddrV4 → SocketAddr
  | V6 : SocketAddrV6 → SocketAddr
deriving DecidableEq, Repr

inductive Shutdown where
  | Read
  | Write
  | Both
deriving DecidableEq, Repr

end abi

/-! ## Address Bridge (os/hermit/io.rs, FromAbi / AsAbi impls)

Each `from_abi` / `as_abi` pair below is the direct transcription of the
corresponding macro-expanded trait impl in `os/hermit/io.rs`. -/

/-- `impl FromAbi for Ipv4Addr`: `Ipv4Addr::new(ip.a, ip.b, ip.c, ip.d)`. -/
def Ipv4Addr.from_abi (ip : abi.Ipv4Addr) : Ipv4Addr :=
  ⟨ip.a, ip.b, ip.c, ip.d⟩

/-- `impl AsAbi for Ipv4Addr`: destructure `octets()` into `{ a, b, c, d }`. -/
def Ipv4Addr.as_abi (ip : Ipv4Addr) : abi.Ipv4Addr :=
  ⟨ip.a, ip.b, ip.c, ip.d⟩

/-- `impl FromAbi for Ipv6Addr`: `Ipv6Addr::new(ip.a, …, ip.h)`. -/
def Ipv6Addr.from_abi (ip : abi.Ipv6Addr) : Ipv6Addr :=
  ⟨ip.a, ip.b, ip.c, ip.d, ip.e, ip.f, ip.g, ip.h⟩

/-- `impl AsAbi for Ipv6Addr`: destructure `segments()` into `{ a, …, h }`. -/
def Ipv6Addr.as_abi (ip : Ipv6Addr) : abi.Ipv6Addr :=
  ⟨ip.a, ip.b, ip.c, ip.d, ip.e, ip.f, ip.g, ip.h⟩

/-- `impl FromAbi for IpAddr`: match on the native variant. -/
def IpAddr.from_abi : abi.IpAddr → IpAddr
  | abi.IpAddr.V4 ipv4 => IpAddr.V4 (Ipv4Addr.from_abi ipv4)
  | abi.IpAddr.V6 ipv6 => IpAddr.V6 (Ipv6Addr.from_abi ipv6)

/-- `impl AsAbi for IpAddr`: match on the portable variant. -/
def IpAddr.as_abi : IpAddr → abi.IpAddr
  | IpAddr.V4 ipv4 => abi.IpAddr.V4 (Ipv4Addr.as_abi ipv4)
  | IpAddr.V6 ipv6 => abi.IpAddr.V6 (Ipv6Addr.as_abi ipv6)

/-- `impl FromAbi for SocketAddrV4`: `SocketAddrV4::new(from_abi(ip_addr), port)`. -/
def SocketAddrV4.from_abi (saddr : abi.SocketAddrV4) : SocketAddrV4 :=
  ⟨Ipv4Addr.from_abi saddr.ip_addr, saddr.port⟩

/-- `impl AsAbi for SocketAddrV4`: `{ ip_addr: ip().as_abi(), port: port() }`. -/
def SocketAddrV4.as_abi (saddr : SocketAddrV4) : abi.SocketAddrV4 :=
  ⟨Ipv4Addr.as_abi saddr.ip, saddr.port⟩

/-- `impl FromAbi for SocketAddrV6`:
`SocketAddrV6::new(from_abi(ip_addr), port, flowinfo, scope_id)`. -/
def SocketAddrV6.from_abi (saddr : abi.SocketAddrV6) : SocketAddrV6 :=
  ⟨Ipv6Addr.from_abi saddr.ip_addr, saddr.port, saddr.flowinfo, saddr.scope_id⟩

/-- `impl AsAbi for SocketAddrV6`: field-for-field copy. -/
def SocketAddrV6.as_abi (saddr : SocketAddrV6) : abi.SocketAddrV6 :=
  ⟨Ipv6Addr.as_abi saddr.ip, saddr.port, saddr.flowinfo, saddr.scope_id⟩

/-- `impl FromAbi for SocketAddr`: match on the native variant. -/
def SocketAddr.from_abi : abi.SocketAddr → SocketAddr
  | abi.SocketAddr.V4 saddr4 => SocketAddr.V4 (SocketAddrV4.from_abi saddr4)
  | abi.SocketAddr.V6 saddr6 => SocketAddr.V6 (SocketAddrV6.from_abi saddr6)

/-- `impl AsAbi for SocketAddr`: match on the portable variant. -/
def SocketAddr.as_abi : SocketAddr → abi.SocketAddr
  | SocketAddr.V4 saddr4 => abi.SocketAddr.V4 (SocketAddrV4.as_abi saddr4)
  | SocketAddr.V6 saddr6 => abi.SocketAddr.V6 (SocketAddrV6.as_abi saddr6)

/-- `impl FromAbi for Shutdown`: 1:1 match on the three variants. -/
def Shutdown.from_abi : abi.Shutdown → Shutdown
  | abi.Shutdown.Read => Shutdown.Read
  | abi.Shutdown.Write => Shutdown.Write
  | abi.Shutdown.Both => Shutdown.Both

/-- `impl AsAbi for Shutdown`: 1:1 match on the three variants. -/
def Shutdown.as_abi : Shutdown → abi.Shutdown
  | Shutdown.Read => abi.Shutdown.Read
  | Shutdown.Write => abi.Shutdown.Write
  | Shutdown.Both => abi.Shutdown.Both

/-! ## Error Bridge (os/hermit/io.rs, FromAbi for ErrorKind / Error) -/

/-- Portable `std::io::ErrorKind`, restricted to the kinds this layer
surfaces (spec §7 taxonomy plus `Uncategorized` used by `net::init`). -/
inductive ErrorKind where
  | NotFound
  | AlreadyExists
  | InvalidInput
  | InvalidData
  | ConnectionRefused
  | ConnectionReset
  | NotConnected
  | AddrInUse
  | AddrNotAvailable
  | WouldBlock
  | TimedOut
  | WriteZero
  | Unsupported
  | Uncategorized
  | Other
deriving DecidableEq, Repr

/-- Portable `std::io::Error`, as constructed by this layer: either a
constant kind+message (`const_io_error!` / `Error::new_const`) or a raw OS
error code (`Error::from_raw_os_error`). -/
inductive Error where
  | const (kind : ErrorKind) (msg : String)
  | rawOs (code : Nat)
deriving DecidableEq, Repr

namespace abi.io

/-- Native `abi::io::ErrorKind`. The seventeen named constructors are the
tags the match in `os/hermit/io.rs` lists. `Unknown` — modelled from the
spec: the hermit ABI error enumeration is external to src/, and the
source match ends in a wildcard arm `_ => ErrorKind::Other`, so any tag
outside the listed set is represented by `Unknown n`. -/
inductive ErrorKind where
  | AlreadyExists
  | NotSocket
  | NotFound
  | NotListening
  | InUse
  | ConnectionRefused
  | ConnectionReset
  | NotConnected
  | AddrInUse
  | AddrNotAvailable
  | WouldBlock
  | InvalidInput
  | InvalidData
  | TimedOut
  | WriteZero
  | Other
  | Unsupported
  | Unknown (tag : Nat)
deriving DecidableEq, Repr

/-- Native `abi::io::Error`: an error-kind tag plus a message. -/
structure Error where
  kind : ErrorKind
  msg : String
deriving DecidableEq, Repr

end abi.io

/-- `impl FromAbi for ErrorKind` (os/hermit/io.rs): total mapping table
with a wildcard arm sending every unlisted native kind to `Other`. -/
def ErrorKind.from_abi : abi.io.ErrorKind → ErrorKind
  | abi.io.ErrorKind.AlreadyExists => ErrorKind.AlreadyExists
  | abi.io.ErrorKind.NotSocket => ErrorKind.InvalidInput
  | abi.io.ErrorKind.NotFound => ErrorKind.NotFound
  | abi.io.ErrorKind.NotListening => ErrorKind.InvalidData
  | abi.io.ErrorKind.InUse => ErrorKind.InvalidData
  | abi.io.ErrorKind.ConnectionRefused => ErrorKind.ConnectionRefused
  | abi.io.ErrorKind.ConnectionReset => ErrorKind.ConnectionReset
  | abi.io.ErrorKind.NotConnected => ErrorKind.NotConnected
  | abi.io.ErrorKind.AddrInUse => ErrorKind.AddrInUse
  | abi.io.ErrorKind.AddrNotAvailable => ErrorKind.AddrNotAvailable
  | abi.io.ErrorKind.WouldBlock => ErrorKind.WouldBlock
  | abi.io.ErrorKind.InvalidInput => ErrorKind.InvalidInput
  | abi.io.ErrorKind.InvalidData => ErrorKind.InvalidData
  | abi.io.ErrorKind.TimedOut => ErrorKind.TimedOut
  | abi.io.ErrorKind.WriteZero => ErrorKind.WriteZero
  | abi.io.ErrorKind.Other => ErrorKind.Other
  | abi.io.ErrorKind.Unsupported => ErrorKind.Unsupported
  | abi.io.ErrorKind.Unknown _ => ErrorKind.Other

/-- `impl FromAbi for Error` (os/hermit/io.rs):
`Error::new_const(ErrorKind::from_abi(err.kind), err.msg)`. -/
def Error.from_abi (err : abi.io.Error) : Error :=
  Error.const (ErrorKind.from_abi err.kind) err.msg

/-- The kind carried by a portable error (for `rawOs` the kind is not a
datum of this layer's construction; it is resolved by std elsewhere). -/
def Error.kindOf : Error → Option ErrorKind
  | Error.const k _ => some k
  | Error.rawOs _ => none

/-- The message carried by a constant portable error. -/
def Error.msgOf : Error → Option String
  | Error.const _ m => some m
  | Error.rawOs _ => none

/-- Modelled from the spec: `crate::sys::unsupported()` (sys/hermit/mod.rs is
not under src/) returns the fixed "operation not supported" error used for
every structurally unsupported operation. -/
def unsupported_err : Error :=
  Error.const ErrorKind.Unsupported "operation not supported"

/-- `unsupported::<T>()` as a result value. -/
def unsupported {α : Type} : Except Error α :=
  Except.error unsupported_err

/-! ## Filesystem Adapter (sys/hermit/fs.rs) -/

/-- Modelled from the spec: open flags are constants of the external
hermit-abi crate (imported by fs.rs, not under src/); only their pairwise
bit-disjointness matters to the resolution table. Values are the octal
constants the ABI documents (0, 1, 2, 0o100, 0o200, 0o1000, 0o2000). -/
def O_RDONLY : Nat := 0

/-- Write-only access flag (hermit-abi `O_WRONLY`). -/
def O_WRONLY : Nat := 1

/-- Read-write access flag (hermit-abi `O_RDWR`). -/
def O_RDWR : Nat := 2

/-- Create-if-missing flag (hermit-abi `O_CREAT`). -/
def O_CREAT : Nat := 64

/-- Exclusive-creation flag (hermit-abi `O_EXCL`). -/
def O_EXCL : Nat := 128

/-- Truncate-existing flag (hermit-abi `O_TRUNC`). -/
def O_TRUNC : Nat := 512

/-- Append flag (hermit-abi `O_APPEND`). -/
def O_APPEND : Nat := 1024

/-- `OpenOptions` (fs.rs): six generic flags plus the system-specific
permission `mode` (i32, default `0o777`), embedded as `Nat`. -/
structure OpenOptions where
  read : Bool
  write : Bool
  append : Bool
  truncate : Bool
  create : Bool
  create_new : Bool
  mode : Nat
deriving DecidableEq, Repr

/-- `OpenOptions::new()` (fs.rs): all flags false, mode `0o777`. -/
def OpenOptions.new : OpenOptions :=
  ⟨false, false, false, false, false, false, 511⟩

/-- `OpenOptions::get_access_mode` (fs.rs): match on (read, write, append). -/
def OpenOptions.get_access_mode (o : OpenOptions) : Except Error Nat :=
  match o.read, o.write, o.append with
  | true, false, false => Except.ok O_RDONLY
  | false, true, false => Except.ok O_WRONLY
  | true, true, false => Except.ok O_RDWR
  | false, _, true => Except.ok (O_WRONLY ||| O_APPEND)
  | true, _, true => Except.ok (O_RDWR ||| O_APPEND)
  | false, false, false =>
      Except.error (Error.const ErrorKind.InvalidInput "invalid access mode")

/-- The final `Ok(match (create, truncate, create_new) ...)` expression of
`OpenOptions::get_creation_mode` (fs.rs). -/
def OpenOptions.creation_flags (o : OpenOptions) : Nat :=
  match o.create, o.truncate, o.create_new with
  | false, false, false => 0
  | true, false, false => O_CREAT
  | false, true, false => O_TRUNC
  | true, true, false => O_CREAT ||| O_TRUNC
  | _, _, true => O_CREAT ||| O_EXCL

/-- `OpenOptions::get_creation_mode` (fs.rs): validity check on
(write, append) crossed with (truncate, create, create_new), then the flag
table. -/
def OpenOptions.get_creation_mode (o : OpenOptions) : Except Error Nat :=
  match o.write, o.append with
  | true, false => Except.ok o.creation_flags
  | false, false =>
      if o.truncate || o.create || o.create_new then
        Except.error (Error.const ErrorKind.InvalidInput "invalid creation mode")
      else
        Except.ok o.creation_flags
  | _, true =>
      if o.truncate && !o.create_new then
        Except.error (Error.const ErrorKind.InvalidInput "invalid creation mode")
      else
        Except.ok o.creation_flags

/-- Native calls the Filesystem Adapter can issue, for call-counting. -/
inductive NativeCall where
  | openCall (flags : Nat) (mode : Nat)
  | unlinkCall (path : String)
  | rmdirCall (path : String)
deriving DecidableEq, Repr

/-- `File::open_c` (fs.rs): resolve access mode, then creation mode
(short-circuiting on error before any native call), or the flags together,
compute the permission `mode` passed to the native open (`opts.mode` iff
`O_CREAT` is among the flags, else 0), and issue the single native
`abi::open` call. The native call itself and the returned descriptor are
external to src/; success is surfaced here as the (flags, mode) pair handed
to that call, and the second component records the native calls issued. -/
def File.open_c (opts : OpenOptions) : Except Error (Nat × Nat) × List NativeCall :=
  match opts.get_access_mode with
  | Except.error e => (Except.error e, [])
  | Except.ok access =>
    match opts.get_creation_mode with
    | Except.error e => (Except.error e, [])
    | Except.ok creation =>
      let flags := access ||| creation
      let mode := if flags &&& O_CREAT = O_CREAT then opts.mode else 0
      (Except.ok (flags, mode), [NativeCall.openCall flags mode])

/-- Spec-side resolution of the access mode, written from the spec's words
(§4.4 step 1): exactly one of read-only, write-only, read-write,
write-only+append, read-write+append; all-false is invalid. -/
def specAccessMode (o : OpenOptions) : Option Nat :=
  if !o.read && !o.write && !o.append then none
  else if o.append then
    some (if o.read then O_RDWR ||| O_APPEND else O_WRONLY ||| O_APPEND)
  else if o.read && o.write then some O_RDWR
  else if o.write then some O_WRONLY
  else if o.read then some O_RDONLY
  else none

/-- Spec-side resolution of the creation mode, written from the spec's words
(§4.4 step 2-3): truncate/create/create_new without write or append is
invalid, append+truncate without create_new is invalid; valid combinations
map to none / O_CREAT / O_TRUNC / O_CREAT|O_TRUNC / O_CREAT|O_EXCL. -/
def specCreationMode (o : OpenOptions) : Option Nat :=
  if (o.truncate || o.create || o.create_new) && !o.write && !o.append then none
  else if o.append && o.truncate && !o.create_new then none
  else some (if o.create_new then O_CREAT ||| O_EXCL
    else if o.create && o.truncate then O_CREAT ||| O_TRUNC
    else if o.truncate then O_TRUNC
    else if o.create then O_CREAT
    else 0)

/-- Spec-side resolution of a whole `OpenOptions` value, written from the
spec's words: access mode first ("invalid access mode" on failure), then
creation mode ("invalid creation mode" on failure), then the combined flag
word with the permission mode attached exactly when creation is requested. -/
def specResolve (o : OpenOptions) : Except Error (Nat × Nat) :=
  match specAccessMode o with
  | none => Except.error (Error.const ErrorKind.InvalidInput "invalid access mode")
  | some access =>
    match specCreationMode o with
    | none => Except.error (Error.const ErrorKind.InvalidInput "invalid creation mode")
    | some creation =>
      let flags := access ||| creation
      Except.ok (flags, if flags &&& O_CREAT = O_CREAT then o.mode else 0)

/-- `remove_dir_all` (fs.rs): unconditionally `Ok(())`, with no native call
(path embedded as a string). -/
def remove_dir_all (_path : String) : Except Error Unit × List NativeCall :=
  (Except.ok (), [])

/-! ### ReadDir (fs.rs) -/

/-- One native directory record, as decoded by `ReadDir::next` from the
ABI-defined offsets: inode, type tag and the copied-out name bytes
(embedded as a string). -/
structure Dirent where
  d_ino : Nat
  d_type : Nat
  d_name : String
deriving DecidableEq, Repr

/-- The native directory cursor state behind `InnerReadDir.dirp`: the
records `abi::readdir` will still yield, and the errno the `super::os::errno()`
side channel reports once the cursor returns null (0 = clean end). -/
structure InnerReadDir where
  entries : List Dirent
  errno : Nat
deriving DecidableEq, Repr

/-- `ReadDir` (fs.rs): the shared inner state plus the `end_of_stream`
flag. -/
structure ReadDir where
  inner : InnerReadDir
  end_of_stream : Bool
deriving DecidableEq, Repr

/-- `DirEntry` (fs.rs): the minimal copied-out record (`dirent_min` plus the
decoded name). -/
structure DirEntry where
  d_ino : Nat
  d_type : Nat
  name : String
deriving DecidableEq, Repr

/-- The `loop` body of `ReadDir::next` (fs.rs): fetch the next native
record; on null set `end_of_stream` and report the pending errno (if any);
skip entries named "." and ".."; otherwise copy the record out and return
it. -/
def readdirLoop (entries : List Dirent) (errno : Nat) :
    Option (Except Error DirEntry) × ReadDir :=
  match entries with
  | [] =>
    (if errno = 0 then none else some (Except.error (Error.rawOs errno)),
     ⟨⟨[], errno⟩, true⟩)
  | e :: rest =>
    if e.d_name = "." ∨ e.d_name = ".." then
      readdirLoop rest errno
    else
      (some (Except.ok ⟨e.d_ino, e.d_type, e.d_name⟩), ⟨⟨rest, errno⟩, false⟩)

/-- `ReadDir::next` (fs.rs): return `None` immediately once
`end_of_stream` is set, otherwise run the native-cursor loop. -/
def ReadDir.next (s : ReadDir) : Option (Except Error DirEntry) × ReadDir :=
  if s.end_of_stream then (none, s)
  else readdirLoop s.inner.entries s.inner.errno

/-! ### File I/O forwarding (fs.rs) -/

/-- Modelled from the spec: behaviour of the underlying descriptor
(`FileDesc`, sys/hermit/fd.rs, not under src/) — the results its read and
write operations would return, plus the result a descriptor-level flush
operation would return (the spec claims flush forwards to the descriptor;
this field lets that claim be stated and tested). -/
structure DescBehavior where
  readRes : Except Error Nat
  writeRes : Except Error Nat
  flushRes : Except Error Unit
deriving Repr

/-- Operations performed on the underlying descriptor. -/
inductive DescCall where
  | readCall (fd : Nat) (len : Nat)
  | writeCall (fd : Nat) (len : Nat)
  | flushCall (fd : Nat)
deriving DecidableEq, Repr

/-- `File` (fs.rs): owns one descriptor. -/
structure File where
  fd : Nat
deriving DecidableEq, Repr

/-- `File::read` (fs.rs): `self.0.read(buf)` — one read on the owned
descriptor, returning its result (buffer embedded by its length). -/
def File.read (f : File) (d : DescBehavior) (len : Nat) :
    Except Error Nat × List DescCall :=
  (d.readRes, [DescCall.readCall f.fd len])

/-- `File::write` (fs.rs): `self.0.write(buf)` — one write on the owned
descriptor, returning its result. -/
def File.write (f : File) (d : DescBehavior) (len : Nat) :
    Except Error Nat × List DescCall :=
  (d.writeRes, [DescCall.writeCall f.fd len])

/-- `File::flush` (fs.rs): `Ok(())` — no operation on the descriptor. -/
def File.flush (_f : File) (_d : DescBehavior) :
    Except Error Unit × List DescCall :=
  (Except.ok (), [])

/-! ## Network Adapter (sys/hermit/net.rs)

The `abi::net` functions the adapter calls are declared in the external
hermit-abi crate, not under src/. Their state is modelled from the spec:
§4.5/§8 describe one shared per-socket timeout ("the backend does not
distinguish read vs write timeouts — setting either sets both"), a
per-socket optional hop limit behind `tcp_set_hop_limit`/`tcp_hop_limit`,
and per-socket local/remote address queries; `tcp_accept` yields a newly
connected native socket. Sockets are embedded as their native handle
(`Nat`); durations as `Nat`. -/

/-- Modelled from the spec: the observable state of the native network
layer, one cell per per-socket setting, plus oracles for the fallible
address/accept queries. -/
structure AbiNetState where
  timeout : Nat → Option Nat
  hop_limit : Nat → Option Nat
  local_addr : Nat → Except abi.io.Error abi.SocketAddr
  remote_addr : Nat → Except abi.io.Error abi.SocketAddr
  accept_result : Nat → Except abi.io.Error Nat

namespace abi.net

/-- Modelled from the spec: `abi::net::socket_set_timeout` stores the given
duration as the socket's single shared timeout. -/
def socket_set_timeout (σ : AbiNetState) (s : Nat) (d : Option Nat) : AbiNetState :=
  ⟨fun t => if t = s then d else σ.timeout t,
   σ.hop_limit, σ.local_addr, σ.remote_addr, σ.accept_result⟩

/-- Modelled from the spec: `abi::net::socket_timeout` reads the socket's
single shared timeout. -/
def socket_timeout (σ : AbiNetState) (s : Nat) : Option Nat :=
  σ.timeout s

/-- Modelled from the spec: `abi::net::tcp_set_hop_limit` stores the given
optional hop limit for the socket (`None` = no hop limit set). -/
def tcp_set_hop_limit (σ : AbiNetState) (s : Nat) (v : Option Nat) : AbiNetState :=
  ⟨σ.timeout, fun t => if t = s then v else σ.hop_limit t,
   σ.local_addr, σ.remote_addr, σ.accept_result⟩

/-- Modelled from the spec: `abi::net::tcp_hop_limit` reads the socket's
optional hop limit. -/
def tcp_hop_limit (σ : AbiNetState) (s : Nat) : Option Nat :=
  σ.hop_limit s

/-- Modelled from the spec: `abi::net::tcp_local_addr` resolves the
socket's own (local) address. -/
def tcp_local_addr (σ : AbiNetState) (s : Nat) : Except abi.io.Error abi.SocketAddr :=
  σ.local_addr s

/-- Modelled from the spec: `abi::net::tcp_remote_addr` resolves the
address of the socket's remote peer. -/
def tcp_remote_addr (σ : AbiNetState) (s : Nat) : Except abi.io.Error abi.SocketAddr :=
  σ.remote_addr s

/-- Modelled from the spec: `abi::net::tcp_accept` blocks until a new
connected socket is available on the listening socket and yields it. -/
def tcp_accept (σ : AbiNetState) (s : Nat) : Except abi.io.Error Nat :=
  σ.accept_result s

end abi.net

/-- `TcpStream` (net.rs): a reference-counted native socket; the claims
verified here depend only on the handle, so the embedding stores it
directly. -/
structure TcpStream where
  socket : Nat
deriving DecidableEq, Repr

/-- `TcpListener` (net.rs): a reference-counted native socket. -/
structure TcpListener where
  socket : Nat
deriving DecidableEq, Repr

/-- `u32::MAX`, the value `TcpStream::ttl` substitutes for an unset native
hop limit. -/
def u32_MAX : Nat := 4294967295

/-- `TcpStream::set_read_timeout` (net.rs): `socket_set_timeout(socket, duration)`. -/
def TcpStream.set_read_timeout (st : TcpStream) (duration : Option Nat)
    (σ : AbiNetState) : Except Error Unit × AbiNetState :=
  (Except.ok (), abi.net.socket_set_timeout σ st.socket duration)

/-- `TcpStream::set_write_timeout` (net.rs): `socket_set_timeout(socket, duration)`
— the same native call as `set_read_timeout`. -/
def TcpStream.set_write_timeout (st : TcpStream) (duration : Option Nat)
    (σ : AbiNetState) : Except Error Unit × AbiNetState :=
  (Except.ok (), abi.net.socket_set_timeout σ st.socket duration)

/-- `TcpStream::read_timeout` (net.rs): `socket_timeout(socket)`. -/
def TcpStream.read_timeout (st : TcpStream) (σ : AbiNetState) :
    Except Error (Option Nat) :=
  Except.ok (abi.net.socket_timeout σ st.socket)

/-- `TcpStream::write_timeout` (net.rs): `socket_timeout(socket)` — the
same native query as `read_timeout`. -/
def TcpStream.write_timeout (st : TcpStream) (σ : AbiNetState) :
    Except Error (Option Nat) :=
  Except.ok (abi.net.socket_timeout σ st.socket)

/-- `TcpStream::set_ttl` (net.rs): `let ttl: Option<u8> = ttl.try_into().ok()`
(`some` iff the u32 fits in a u8, `none` otherwise — no error is reported),
then `tcp_set_hop_limit(socket, ttl)`. -/
def TcpStream.set_ttl (st : TcpStream) (ttl : Nat) (σ : AbiNetState) :
    Except Error Unit × AbiNetState :=
  let t : Option Nat := if ttl ≤ 255 then some ttl else none
  (Except.ok (), abi.net.tcp_set_hop_limit σ st.socket t)

/-- `TcpStream::ttl` (net.rs): `tcp_hop_limit(socket)` mapped through
`ttl.map(u32::from).unwrap_or(u32::MAX)`. -/
def TcpStream.ttl (st : TcpStream) (σ : AbiNetState) : Except Error Nat :=
  Except.ok ((abi.net.tcp_hop_limit σ st.socket).getD u32_MAX)

/-- `TcpStream::socket_addr` (net.rs): `tcp_local_addr(socket)`, converted
through the Address/Error Bridges. -/
def TcpStream.socket_addr (st : TcpStream) (σ : AbiNetState) :
    Except Error SocketAddr :=
  match abi.net.tcp_local_addr σ st.socket with
  | Except.ok addr => Except.ok (SocketAddr.from_abi addr)
  | Except.error e => Except.error (Error.from_abi e)

/-- `TcpStream::peer_addr` (net.rs): `tcp_remote_addr(socket)`, converted
through the Address/Error Bridges. -/
def TcpStream.peer_addr (st : TcpStream) (σ : AbiNetState) :
    Except Error SocketAddr :=
  match abi.net.tcp_remote_addr σ st.socket with
  | Except.ok addr => Except.ok (SocketAddr.from_abi addr)
  | Except.error e => Except.error (Error.from_abi e)

/-- `TcpListener::accept` (net.rs): `tcp_accept(socket)`, wrap the new
socket as a `TcpStream`, then `let remote = stream.socket_addr()?` and
return the pair. Note the second component is obtained from
`socket_addr` (the native `tcp_local_addr`), not from `peer_addr`. -/
def TcpListener.accept (l : TcpListener) (σ : AbiNetState) :
    Except Error (TcpStream × SocketAddr) :=
  match abi.net.tcp_accept σ l.socket with
  | Except.error e => Except.error (Error.from_abi e)
  | Except.ok socket =>
    let stream : TcpStream := ⟨socket⟩
    match stream.socket_addr σ with
    | Except.error e => Except.error e
    | Except.ok remote => Except.ok (stream, remote)

/-! ### UdpSocket (net.rs): every operation is `unsupported()` -/

/-- Native calls the Network Adapter could issue (none are issued by any
`UdpSocket` operation). -/
inductive NetCall where
  | socketCreate
  | bindCall (addr : abi.SocketAddr)
  | sendCall (len : Nat)
  | recvCall (len : Nat)
  | otherCall (tag : Nat)
deriving DecidableEq, Repr

/-- `UdpSocket` (net.rs): wraps an `abi::Handle`, embedded as `Nat`. -/
structure UdpSocket where
  handle : Nat
deriving DecidableEq, Repr

namespace UdpSocket

/-- `UdpSocket::bind` (net.rs): `unsupported()`, even when the argument is
an error; no native call. -/
def bind (_addr : Except Error SocketAddr) : Except Error UdpSocket × List NetCall :=
  (unsupported, [])

/-- `UdpSocket::peer_addr` (net.rs): `unsupported()`. -/
def peer_addr (_u : UdpSocket) : Except Error SocketAddr × List NetCall :=
  (unsupported, [])

/-- `UdpSocket::socket_addr` (net.rs): `unsupported()`. -/
def socket_addr (_u : UdpSocket) : Except Error SocketAddr × List NetCall :=
  (unsupported, [])

/-- `UdpSocket::recv_from` (net.rs): `unsupported()`. -/
def recv_from (_u : UdpSocket) (_len : Nat) :
    Except Error (Nat × SocketAddr) × List NetCall :=
  (unsupported, [])

/-- `UdpSocket::peek_from` (net.rs): `unsupported()`. -/
def peek_from (_u : UdpSocket) (_len : Nat) :
    Except Error (Nat × SocketAddr) × List NetCall :=
  (unsupported, [])

/-- `UdpSocket::send_to` (net.rs): `unsupported()`. -/
def send_to (_u : UdpSocket) (_len : Nat) (_addr : SocketAddr) :
    Except Error Nat × List NetCall :=
  (unsupported, [])

/-- `UdpSocket::duplicate` (net.rs): `unsupported()`. -/
def duplicate (_u : UdpSocket) : Except Error UdpSocket × List NetCall :=
  (unsupported, [])

/-- `UdpSocket::set_read_timeout` (net.rs): `unsupported()`. -/
def set_read_timeout (_u : UdpSocket) (_d : Option Nat) :
    Except Error Unit × List NetCall :=
  (unsupported, [])

/-- `UdpSocket::set_write_timeout` (net.rs): `unsupported()`. -/
def set_write_timeout (_u : UdpSocket) (_d : Option Nat) :
    Except Error Unit × List NetCall :=
  (unsupported, [])

/-- `UdpSocket::read_timeout` (net.rs): `unsupported()`. -/
def read_timeout (_u : UdpSocket) : Except Error (Option Nat) × List NetCall :=
  (unsupported, [])

/-- `UdpSocket::write_timeout` (net.rs): `unsupported()`. -/
def write_timeout (_u : UdpSocket) : Except Error (Option Nat) × List NetCall :=
  (unsupported, [])

/-- `UdpSocket::set_broadcast` (net.rs): `unsupported()`. -/
def set_broadcast (_u : UdpSocket) (_b : Bool) : Except Error Unit × List NetCall :=
  (unsupported, [])

/-- `UdpSocket::broadcast` (net.rs): `unsupported()`. -/
def broadcast (_u : UdpSocket) : Except Error Bool × List NetCall :=
  (unsupported, [])

/-- `UdpSocket::set_multicast_loop_v4` (net.rs): `unsupported()`. -/
def set_multicast_loop_v4 (_u : UdpSocket) (_b : Bool) :
    Except Error Unit × List NetCall :=
  (unsupported, [])

/-- `UdpSocket::multicast_loop_v4` (net.rs): `unsupported()`. -/
def multicast_loop_v4 (_u : UdpSocket) : Except Error Bool × List NetCall :=
  (unsupported, [])

/-- `UdpSocket::set_multicast_ttl_v4` (net.rs): `unsupported()`. -/
def set_multicast_ttl_v4 (_u : UdpSocket) (_v : Nat) :
    Except Error Unit × List NetCall :=
  (unsupported, [])

/-- `UdpSocket::multicast_ttl_v4` (net.rs): `unsupported()`. -/
def multicast_ttl_v4 (_u : UdpSocket) : Except Error Nat × List NetCall :=
  (unsupported, [])

/-- `UdpSocket::set_multicast_loop_v6` (net.rs): `unsupported()`. -/
def set_multicast_loop_v6 (_u : UdpSocket) (_b : Bool) :
    Except Error Unit × List NetCall :=
  (unsupported, [])

/-- `UdpSocket::multicast_loop_v6` (net.rs): `unsupported()`. -/
def multicast_loop_v6 (_u : UdpSocket) : Except Error Bool × List NetCall :=
  (unsupported, [])

/-- `UdpSocket::join_multicast_v4` (net.rs): `unsupported()`. -/
def join_multicast_v4 (_u : UdpSocket) (_a _b : Ipv4Addr) :
    Except Error Unit × List NetCall :=
  (unsupported, [])

/-- `UdpSocket::join_multicast_v6` (net.rs): `unsupported()`. -/
def join_multicast_v6 (_u : UdpSocket) (_a : Ipv6Addr) (_i : Nat) :
    Except Error Unit × List NetCall :=
  (unsupported, [])

/-- `UdpSocket::leave_multicast_v4` (net.rs): `unsupported()`. -/
def leave_multicast_v4 (_u : UdpSocket) (_a _b : Ipv4Addr) :
    Except Error Unit × List NetCall :=
  (unsupported, [])

/-- `UdpSocket::leave_multicast_v6` (net.rs): `unsupported()`. -/
def leave_multicast_v6 (_u : UdpSocket) (_a : Ipv6Addr) (_i : Nat) :
    Except Error Unit × List NetCall :=
  (unsupported, [])

/-- `UdpSocket::set_ttl` (net.rs): `unsupported()`. -/
def set_ttl (_u : UdpSocket) (_v : Nat) : Except Error Unit × List NetCall :=
  (unsupported, [])

/-- `UdpSocket::ttl` (net.rs): `unsupported()`. -/
def ttl (_u : UdpSocket) : Except Error Nat × List NetCall :=
  (unsupported, [])

/-- `UdpSocket::take_error` (net.rs): `unsupported()`. -/
def take_error (_u : UdpSocket) : Except Error (Option Error) × List NetCall :=
  (unsupported, [])

/-- `UdpSocket::set_nonblocking` (net.rs): `unsupported()`. -/
def set_nonblocking (_u : UdpSocket) (_b : Bool) :
    Except Error Unit × List NetCall :=
  (unsupported, [])

/-- `UdpSocket::recv` (net.rs): `unsupported()`. -/
def recv (_u : UdpSocket) (_len : Nat) : Except Error Nat × List NetCall :=
  (unsupported, [])

/-- `UdpSocket::peek` (net.rs): `unsupported()`. -/
def peek (_u : UdpSocket) (_len : Nat) : Except Error Nat × List NetCall :=
  (unsupported, [])

/-- `UdpSocket::send` (net.rs): `unsupported()`. -/
def send (_u : UdpSocket) (_len : Nat) : Except Error Nat × List NetCall :=
  (unsupported, [])

/-- `UdpSocket::connect` (net.rs): `unsupported()`, even when the argument
is an error. -/
def connect (_u : UdpSocket) (_addr : Except Error SocketAddr) :
    Except Error Unit × List NetCall :=
  (unsupported, [])

end UdpSocket

/-! ## Helper lemmas -/

/-- When the native-cursor loop yields an entry, that entry's name was not
skipped, so it is neither "." nor "..". -/
theorem readdirLoop_ok_name (entries : List Dirent) (errno : Nat) (r : DirEntry)
    (t : ReadDir) (h : readdirLoop entries errno = (some (Except.ok r), t)) :
    r.name ≠ "." ∧ r.name ≠ ".." := by
  induction entries with
  | nil =>
    by_cases he : errno = 0 <;> simp [readdirLoop, he] at h
  | cons e rest ih =>
    rw [readdirLoop] at h
    split at h
    · exact ih h
    · next hns =>
      simp only [Prod.mk.injEq, Option.some.injEq, Except.ok.injEq] at h
      obtain ⟨hr, -⟩ := h
      subst hr
      exact ⟨fun hc => hns (Or.inl hc), fun hc => hns (Or.inr hc)⟩

/-- The native-cursor loop either yields an entry or leaves the iterator in
the terminal `end_of_stream` state. -/
theorem readdirLoop_eos (entries : List Dirent) (errno : Nat) :
    (∃ r t, readdirLoop entries errno = (some (Except.ok r), t)) ∨
    (readdirLoop entries errno).2.end_of_stream = true := by
  induction entries with
  | nil =>
    right
    by_cases he : errno = 0 <;> simp [readdirLoop, he]
  | cons e rest ih =>
    rw [readdirLoop]
    split
    · exact ih
    · exact Or.inl ⟨_, _, rfl⟩

/-- Once `next` returns anything other than a yielded entry, the successor
state answers `none` forever. -/
theorem next_terminal (s s' : ReadDir) (o : Option (Except Error DirEntry))
    (h : ReadDir.next s = (o, s')) (ho : ∀ r, o ≠ some (Except.ok r)) :
    ReadDir.next s' = (none, s') := by
  unfold ReadDir.next at h
  split at h
  · next heos =>
    obtain ⟨ho', hs⟩ := Prod.mk.injEq .. ▸ h
    subst hs
    simp [ReadDir.next, heos]
  · rcases readdirLoop_eos s.inner.entries s.inner.errno with ⟨r, t, hr⟩ | heos
    · rw [hr] at h
      obtain ⟨ho', -⟩ := Prod.mk.injEq .. ▸ h
      exact absurd ho'.symm (ho r)
    · rw [h] at heos
      have heos' : s'.end_of_stream = true := heos
      simp [ReadDir.next, heos']

/-! ## Claim theorems -/

/-- C1: the claim says `accept()` returns, alongside the new stream, the
address of the remote peer, obtained by resolving the accepted socket's
peer address. The code instead resolves `socket_addr()` — the native
`tcp_local_addr` — and returns that (binding it to a variable named
`remote`): at a state where the accepted socket's local address
192.168.0.1:8080 differs from its peer address 10.0.0.7:45000, `accept`
returns the local address, not the peer address `peer_addr` resolves. -/
theorem accept_returns_local_not_peer :
    (TcpListener.accept ⟨1⟩
        ⟨fun _ => none, fun _ => none,
         fun _ => Except.ok (abi.SocketAddr.V4 ⟨⟨192, 168, 0, 1⟩, 8080⟩),
         fun _ => Except.ok (abi.SocketAddr.V4 ⟨⟨10, 0, 0, 7⟩, 45000⟩),
         fun _ => Except.ok 5⟩ =
      Except.ok (⟨5⟩, SocketAddr.V4 ⟨⟨192, 168, 0, 1⟩, 8080⟩)) ∧
    (TcpStream.peer_addr ⟨5⟩
        ⟨fun _ => none, fun _ => none,
         fun _ => Except.ok (abi.SocketAddr.V4 ⟨⟨192, 168, 0, 1⟩, 8080⟩),
         fun _ => Except.ok (abi.SocketAddr.V4 ⟨⟨10, 0, 0, 7⟩, 45000⟩),
         fun _ => Except.ok 5⟩ =
      Except.ok (SocketAddr.V4 ⟨⟨10, 0, 0, 7⟩, 45000⟩)) ∧
    (SocketAddr.V4 ⟨⟨192, 168, 0, 1⟩, 8080⟩ : SocketAddr) ≠
      SocketAddr.V4 ⟨⟨10, 0, 0, 7⟩, 45000⟩ :=
  ⟨rfl, rfl, by decide⟩

/-- C2: for every `OpenOptions` value, `open_c` resolution agrees exactly
with the documented table (`specResolve`, written from the spec's words):
valid combinations yield exactly the documented access-mode flag combined
with the documented creation flag (with the permission mode attached iff
`O_CREAT` is requested) and issue exactly one native open call with those
flags; invalid combinations fail with the `InvalidInput` error
"invalid access mode" or "invalid creation mode" respectively, with no
native call made. -/
theorem open_options_resolution (o : OpenOptions) :
    File.open_c o = (match specResolve o with
      | Except.error e => (Except.error e, [])
      | Except.ok fm => (Except.ok fm, [NativeCall.openCall fm.1 fm.2])) := by
  rcases o with ⟨r, w, a, t, c, cn, m⟩
  cases r <;> cases w <;> cases a <;> cases t <;> cases c <;> cases cn <;> rfl

/-- C3: each of the seven portable/native conversion pairs of the Address
Bridge is mutually inverse — portable → native → portable and
native → portable → native are both the identity, for every value. -/
theorem address_bridge_roundtrip :
    (∀ x : Ipv4Addr, Ipv4Addr.from_abi (Ipv4Addr.as_abi x) = x) ∧
    (∀ y : abi.Ipv4Addr, Ipv4Addr.as_abi (Ipv4Addr.from_abi y) = y) ∧
    (∀ x : Ipv6Addr, Ipv6Addr.from_abi (Ipv6Addr.as_abi x) = x) ∧
    (∀ y : abi.Ipv6Addr, Ipv6Addr.as_abi (Ipv6Addr.from_abi y) = y) ∧
    (∀ x : IpAddr, IpAddr.from_abi (IpAddr.as_abi x) = x) ∧
    (∀ y : abi.IpAddr, IpAddr.as_abi (IpAddr.from_abi y) = y) ∧
    (∀ x : SocketAddrV4, SocketAddrV4.from_abi (SocketAddrV4.as_abi x) = x) ∧
    (∀ y : abi.SocketAddrV4, SocketAddrV4.as_abi (SocketAddrV4.from_abi y) = y) ∧
    (∀ x : SocketAddrV6, SocketAddrV6.from_abi (SocketAddrV6.as_abi x) = x) ∧
    (∀ y : abi.SocketAddrV6, SocketAddrV6.as_abi (SocketAddrV6.from_abi y) = y) ∧
    (∀ x : SocketAddr, SocketAddr.from_abi (SocketAddr.as_abi x) = x) ∧
    (∀ y : abi.SocketAddr, SocketAddr.as_abi (SocketAddr.from_abi y) = y) ∧
    (∀ x : Shutdown, Shutdown.from_abi (Shutdown.as_abi x) = x) ∧
    (∀ y : abi.Shutdown, Shutdown.as_abi (Shutdown.from_abi y) = y) := by
  exact ⟨fun _ => rfl, fun _ => rfl, fun _ => rfl, fun _ => rfl,
    fun x => by cases x <;> rfl, fun y => by cases y <;> rfl,
    fun _ => rfl, fun _ => rfl, fun _ => rfl, fun _ => rfl,
    fun x => by cases x <;> rfl, fun y => by cases y <;> rfl,
    fun x => by cases x <;> rfl, fun y => by cases y <;> rfl⟩

/-- C4: the Error Bridge is total — each listed native error-kind tag maps
to its listed portable kind, every unlisted native kind maps to `Other`,
and converting a native error record yields a portable error with the
mapped kind and the native message verbatim. -/
theorem error_bridge_mapping :
    ErrorKind.from_abi abi.io.ErrorKind.AlreadyExists = ErrorKind.AlreadyExists ∧
    ErrorKind.from_abi abi.io.ErrorKind.NotSocket = ErrorKind.InvalidInput ∧
    ErrorKind.from_abi abi.io.ErrorKind.NotFound = ErrorKind.NotFound ∧
    ErrorKind.from_abi abi.io.ErrorKind.NotListening = ErrorKind.InvalidData ∧
    ErrorKind.from_abi abi.io.ErrorKind.InUse = ErrorKind.InvalidData ∧
    ErrorKind.from_abi abi.io.ErrorKind.ConnectionRefused = ErrorKind.ConnectionRefused ∧
    ErrorKind.from_abi abi.io.ErrorKind.ConnectionReset = ErrorKind.ConnectionReset ∧
    ErrorKind.from_abi abi.io.ErrorKind.NotConnected = ErrorKind.NotConnected ∧
    ErrorKind.from_abi abi.io.ErrorKind.AddrInUse = ErrorKind.AddrInUse ∧
    ErrorKind.from_abi abi.io.ErrorKind.AddrNotAvailable = ErrorKind.AddrNotAvailable ∧
    ErrorKind.from_abi abi.io.ErrorKind.WouldBlock = ErrorKind.WouldBlock ∧
    ErrorKind.from_abi abi.io.ErrorKind.InvalidInput = ErrorKind.InvalidInput ∧
    ErrorKind.from_abi abi.io.ErrorKind.InvalidData = ErrorKind.InvalidData ∧
    ErrorKind.from_abi abi.io.ErrorKind.TimedOut = ErrorKind.TimedOut ∧
    ErrorKind.from_abi abi.io.ErrorKind.WriteZero = ErrorKind.WriteZero ∧
    ErrorKind.from_abi abi.io.ErrorKind.Other = ErrorKind.Other ∧
    ErrorKind.from_abi abi.io.ErrorKind.Unsupported = ErrorKind.Unsupported ∧
    (∀ n : Nat, ErrorKind.from_abi (abi.io.ErrorKind.Unknown n) = ErrorKind.Other) ∧
    (∀ e : abi.io.Error,
      Error.from_abi e = Error.const (ErrorKind.from_abi e.kind) e.msg ∧
      (Error.from_abi e).msgOf = some e.msg ∧
      (Error.from_abi e).kindOf = some (ErrorKind.from_abi e.kind)) :=
  ⟨rfl, rfl, rfl, rfl, rfl, rfl, rfl, rfl, rfl, rfl, rfl, rfl, rfl, rfl, rfl,
   rfl, rfl, fun _ => rfl, fun _ => ⟨rfl, rfl, rfl⟩⟩

/-- C5: `ReadDir::next` never yields an entry named "." or ".." (they are
skipped); once `next` returns `None` the iterator state is terminal, every
subsequent call returning `None` again; and a surfaced end-of-iteration
error is followed only by `None`, so it is surfaced at most once. -/
theorem readdir_iteration_claims :
    (∀ s r s', ReadDir.next s = (some (Except.ok r), s') →
      r.name ≠ "." ∧ r.name ≠ "..") ∧
    (∀ s s', ReadDir.next s = (none, s') → ReadDir.next s' = (none, s')) ∧
    (∀ s e s', ReadDir.next s = (some (Except.error e), s') →
      ReadDir.next s' = (none, s')) := by
  refine ⟨?_, ?_, ?_⟩
  · intro s r s' h
    unfold ReadDir.next at h
    split at h
    · simp at h
    · exact readdirLoop_ok_name _ _ _ _ h
  · intro s s' h
    exact next_terminal s s' none h (fun r => by simp)
  · intro s e s' h
    exact next_terminal s s' (some (Except.error e)) h (fun r => by simp)

/-- C5 witness: on the concrete stream [".", "..", "file.txt"] the yielded
entry is "file.txt"; a cleanly exhausted iterator stays exhausted; an
iterator that surfaced errno 9 stays exhausted. -/
theorem readdir_iteration_claims_witness :
    ((⟨7, 1, "file.txt"⟩ : DirEntry).name ≠ "." ∧
      (⟨7, 1, "file.txt"⟩ : DirEntry).name ≠ "..") ∧
    ReadDir.next ⟨⟨[], 0⟩, true⟩ = (none, ⟨⟨[], 0⟩, true⟩) ∧
    ReadDir.next ⟨⟨[], 9⟩, true⟩ = (none, ⟨⟨[], 9⟩, true⟩) :=
  ⟨readdir_iteration_claims.1 ⟨⟨[⟨1, 2, "."⟩, ⟨3, 2, ".."⟩, ⟨7, 1, "file.txt"⟩], 0⟩, false⟩
      ⟨7, 1, "file.txt"⟩ ⟨⟨[], 0⟩, false⟩ rfl,
   readdir_iteration_claims.2.1 ⟨⟨[], 0⟩, false⟩ ⟨⟨[], 0⟩, true⟩ rfl,
   readdir_iteration_claims.2.2 ⟨⟨[], 9⟩, false⟩ (Error.rawOs 9) ⟨⟨[], 9⟩, true⟩ rfl⟩

/-- C6: `set_read_timeout` and `set_write_timeout` perform the same native
operation on the single shared timeout, `read_timeout` and `write_timeout`
perform the same native query, and after `set_read_timeout(Some(d))`
succeeds `write_timeout()` returns `Some(d)`. -/
theorem tcp_timeout_coupling (st : TcpStream) (σ : AbiNetState)
    (q : Option Nat) (d : Nat) :
    TcpStream.set_read_timeout st q σ = TcpStream.set_write_timeout st q σ ∧
    TcpStream.read_timeout st σ = TcpStream.write_timeout st σ ∧
    (TcpStream.set_read_timeout st (some d) σ).1 = Except.ok () ∧
    TcpStream.write_timeout st (TcpStream.set_read_timeout st (some d) σ).2 =
      Except.ok (some d) := by
  refine ⟨rfl, rfl, rfl, ?_⟩
  simp [TcpStream.write_timeout, TcpStream.set_read_timeout,
    abi.net.socket_timeout, abi.net.socket_set_timeout]

/-- C7: `remove_dir_all` succeeds on every path without issuing any native
call. -/
theorem remove_dir_all_is_noop_success (path : String) :
    remove_dir_all path = (Except.ok (), []) :=
  rfl

/-- C8 counterexample: at a descriptor whose flush operation would fail,
`File::flush` still returns `Ok(())` — its result is not that operation's
result — and it performs no operation on the descriptor at all. -/
theorem file_flush_not_forwarded :
    (File.flush ⟨3⟩ ⟨Except.ok 0, Except.ok 0,
        Except.error (Error.const ErrorKind.Other "flush failed")⟩).1 ≠
      (⟨Except.ok 0, Except.ok 0,
        Except.error (Error.const ErrorKind.Other "flush failed")⟩ : DescBehavior).flushRes ∧
    (File.flush ⟨3⟩ ⟨Except.ok 0, Except.ok 0,
        Except.error (Error.const ErrorKind.Other "flush failed")⟩).2 = [] :=
  ⟨nofun, rfl⟩

/-- C8 (amended): `File::read` and `File::write` forward directly to the
owned descriptor and return its result; `File::flush` unconditionally
returns `Ok(())` without performing any operation on the descriptor. -/
theorem file_io_forwarding (f : File) (d : DescBehavior) (len : Nat) :
    File.read f d len = (d.readRes, [DescCall.readCall f.fd len]) ∧
    File.write f d len = (d.writeRes, [DescCall.writeCall f.fd len]) ∧
    File.flush f d = (Except.ok (), []) :=
  ⟨rfl, rfl, rfl⟩

/-- C9: every `UdpSocket` operation returns the fixed "operation not
supported" error, for all arguments and socket values, issuing no native
call. -/
theorem udp_all_operations_unsupported :
    unsupported_err = Error.const ErrorKind.Unsupported "operation not supported" ∧
    (∀ addr, UdpSocket.bind addr = (unsupported, [])) ∧
    (∀ u, UdpSocket.peer_addr u = (unsupported, [])) ∧
    (∀ u, UdpSocket.socket_addr u = (unsupported, [])) ∧
    (∀ u len, UdpSocket.recv_from u len = (unsupported, [])) ∧
    (∀ u len, UdpSocket.peek_from u len = (unsupported, [])) ∧
    (∀ u len addr, UdpSocket.send_to u len addr = (unsupported, [])) ∧
    (∀ u, UdpSocket.duplicate u = (unsupported, [])) ∧
    (∀ u d, UdpSocket.set_read_timeout u d = (unsupported, [])) ∧
    (∀ u d, UdpSocket.set_write_timeout u d = (unsupported, [])) ∧
    (∀ u, UdpSocket.read_timeout u = (unsupported, [])) ∧
    (∀ u, UdpSocket.write_timeout u = (unsupported, [])) ∧
    (∀ u b, UdpSocket.set_broadcast u b = (unsupported, [])) ∧
    (∀ u, UdpSocket.broadcast u = (unsupported, [])) ∧
    (∀ u b, UdpSocket.set_multicast_loop_v4 u b = (unsupported, [])) ∧
    (∀ u, UdpSocket.multicast_loop_v4 u = (unsupported, [])) ∧
    (∀ u v, UdpSocket.set_multicast_ttl_v4 u v = (unsupported, [])) ∧
    (∀ u, UdpSocket.multicast_ttl_v4 u = (unsupported, [])) ∧
    (∀ u b, UdpSocket.set_multicast_loop_v6 u b = (unsupported, [])) ∧
    (∀ u, UdpSocket.multicast_loop_v6 u = (unsupported, [])) ∧
    (∀ u a b, UdpSocket.join_multicast_v4 u a b = (unsupported, [])) ∧
    (∀ u a i, UdpSocket.join_multicast_v6 u a i = (unsupported, [])) ∧
    (∀ u a b, UdpSocket.leave_multicast_v4 u a b = (unsupported, [])) ∧
    (∀ u a i, UdpSocket.leave_multicast_v6 u a i = (unsupported, [])) ∧
    (∀ u v, UdpSocket.set_ttl u v = (unsupported, [])) ∧
    (∀ u, UdpSocket.ttl u = (unsupported, [])) ∧
    (∀ u, UdpSocket.take_error u = (unsupported, [])) ∧
    (∀ u b, UdpSocket.set_nonblocking u b = (unsupported, [])) ∧
    (∀ u len, UdpSocket.recv u len = (unsupported, [])) ∧
    (∀ u len, UdpSocket.peek u len = (unsupported, [])) ∧
    (∀ u len, UdpSocket.send u len = (unsupported, [])) ∧
    (∀ u addr, UdpSocket.connect u addr = (unsupported, [])) :=
  ⟨rfl,
   fun _ => rfl, fun _ => rfl, fun _ => rfl, fun _ _ => rfl, fun _ _ => rfl,
   fun _ _ _ => rfl, fun _ => rfl, fun _ _ => rfl, fun _ _ => rfl,
   fun _ => rfl, fun _ => rfl, fun _ _ => rfl, fun _ => rfl, fun _ _ => rfl,
   fun _ => rfl, fun _ _ => rfl, fun _ => rfl, fun _ _ => rfl, fun _ => rfl,
   fun _ _ _ => rfl, fun _ _ _ => rfl, fun _ _ _ => rfl, fun _ _ _ => rfl,
   fun _ _ => rfl, fun _ => rfl, fun _ => rfl, fun _ _ => rfl,
   fun _ _ => rfl, fun _ _ => rfl, fun _ _ => rfl, fun _ _ => rfl⟩

/-- C10: `set_ttl` never reports a range error; with `n ≤ 255` it installs
`n` as the native hop limit, so `ttl()` then returns `n`; with `n > 255`
the value is silently converted to "no hop limit set" (`None`), after which
`ttl()` returns `u32::MAX` rather than `n`. -/
theorem tcp_ttl_claims (st : TcpStream) (σ : AbiNetState) (n : Nat) :
    (TcpStream.set_ttl st n σ).1 = Except.ok () ∧
    (n ≤ 255 → TcpStream.ttl st (TcpStream.set_ttl st n σ).2 = Except.ok n) ∧
    (255 < n → TcpStream.ttl st (TcpStream.set_ttl st n σ).2 = Except.ok u32_MAX) := by
  refine ⟨rfl, ?_, ?_⟩
  · intro h
    simp [TcpStream.ttl, TcpStream.set_ttl, abi.net.tcp_hop_limit,
      abi.net.tcp_set_hop_limit, h]
  · intro h
    have h' : ¬ n ≤ 255 := Nat.not_le.mpr h
    simp [TcpStream.ttl, TcpStream.set_ttl, abi.net.tcp_hop_limit,
      abi.net.tcp_set_hop_limit, h', u32_MAX]

/-- C10 witness: on a fresh native state, `set_ttl 7` makes `ttl()` return
7, and `set_ttl 300` succeeds but makes `ttl()` return `u32::MAX`. -/
theorem tcp_ttl_claims_witness :
    (7 ≤ 255 ∧
      TcpStream.ttl ⟨0⟩ (TcpStream.set_ttl ⟨0⟩ 7
        ⟨fun _ => none, fun _ => none,
         fun _ => Except.error ⟨abi.io.ErrorKind.NotConnected, "not connected"⟩,
         fun _ => Except.error ⟨abi.io.ErrorKind.NotConnected, "not connected"⟩,
         fun _ => Except.error ⟨abi.io.ErrorKind.NotListening, "not listening"⟩⟩).2 =
        Except.ok 7) ∧
    (255 < 300 ∧
      (TcpStream.set_ttl ⟨0⟩ 300
        ⟨fun _ => none, fun _ => none,
         fun _ => Except.error ⟨abi.io.ErrorKind.NotConnected, "not connected"⟩,
         fun _ => Except.error ⟨abi.io.ErrorKind.NotConnected, "not connected"⟩,
         fun _ => Except.error ⟨abi.io.ErrorKind.NotListening, "not listening"⟩⟩).1 =
        Except.ok () ∧
      TcpStream.ttl ⟨0⟩ (TcpStream.set_ttl ⟨0⟩ 300
        ⟨fun _ => none, fun _ => none,
         fun _ => Except.error ⟨abi.io.ErrorKind.NotConnected, "not connected"⟩,
         fun _ => Except.error ⟨abi.io.ErrorKind.NotConnected, "not connected"⟩,
         fun _ => Except.error ⟨abi.io.ErrorKind.NotListening, "not listening"⟩⟩).2 =
        Except.ok u32_MAX) :=
  ⟨⟨by decide,
    (tcp_ttl_claims ⟨0⟩
      ⟨fun _ => none, fun _ => none,
       fun _ => Except.error ⟨abi.io.ErrorKind.NotConnected, "not connected"⟩,
       fun _ => Except.error ⟨abi.io.ErrorKind.NotConnected, "not connected"⟩,
       fun _ => Except.error ⟨abi.io.ErrorKind.NotListening, "not listening"⟩⟩ 7).2.1
      (by decide)⟩,
   ⟨by decide,
    (tcp_ttl_claims ⟨0⟩
      ⟨fun _ => none, fun _ => none,
       fun _ => Except.error ⟨abi.io.ErrorKind.NotConnected, "not connected"⟩,
       fun _ => Except.error ⟨abi.io.ErrorKind.NotConnected, "not connected"⟩,
       fun _ => Except.error ⟨abi.io.ErrorKind.NotListening, "not listening"⟩⟩ 300).1,
    (tcp_ttl_claims ⟨0⟩
      ⟨fun _ => none, fun _ => none,
       fun _ => Except.error ⟨abi.io.ErrorKind.NotConnected, "not connected"⟩,
       fun _ => Except.error ⟨abi.io.ErrorKind.NotConnected, "not connected"⟩,
       fun _ => Except.error ⟨abi.io.ErrorKind.NotListening, "not listening"⟩⟩ 300).2.2
      (by decide)⟩⟩

end Hermit
